import Mathlib

/-!
Verification of the admission-control core of the Chronicle capture pipeline:
the `Sampler` (src/integrations/sampling.py) and the two quota limiters
(`FunctionLimiter` and `TypeLimiter`, src/integrations/ui.py).

Embedding conventions:
* Python floats are modelled as exact rationals (`ℚ`); the spec's arithmetic
  claims are symbolic, so all rate computations are carried out exactly.
* `random.random()` draws and `time.time()` timestamps are explicit inputs
  (`draw`, `now`) of each decision call; a call uses at most one draw.
* Python dicts are association lists with unique keys (first-match lookup);
  Python sets are lists with membership-guarded insertion.
* `str.lower` is per-character lowercasing, and `str.startswith` is the
  character-level prefix test.
* The md5-based pattern hash is modelled as the identity on the joined
  pattern string (the hash is injective on the inputs of interest).
-/

namespace Chronicle

/-- First-match lookup in an association list (Python `dict.__getitem__`). -/
def alookup {α : Type} : List (String × α) → String → Option α
  | [], _ => none
  | (k', v) :: rest, k => if k' = k then some v else alookup rest k

/-- Lookup with a default (Python `dict.get(k, d)`). -/
def alookupD {α : Type} (l : List (String × α)) (k : String) (d : α) : α :=
  (alookup l k).getD d

/-- Update the first binding of `k`, or append a new one (Python `d[k] = v`). -/
def aset {α : Type} : List (String × α) → String → α → List (String × α)
  | [], k, v => [(k, v)]
  | (k', v') :: rest, k, v =>
      if k' = k then (k', v) :: rest else (k', v') :: aset rest k v

/-- Remove every binding of `k` (Python `del d[k]` on a unique-key dict). -/
def aerase {α : Type} (l : List (String × α)) (k : String) : List (String × α) :=
  l.filter (fun p => p.1 ≠ k)

/-- Set insertion (Python `set.add`): append the element unless present. -/
def sinsert (l : List String) (x : String) : List String :=
  if x ∈ l then l else l ++ [x]

/-- Set removal (Python `set.discard`). -/
def sdiscard (l : List String) (x : String) : List String :=
  l.filter (fun y => y ≠ x)

/-- Python `str.startswith`: character-level prefix test. -/
def pyStartswith (s p : String) : Bool :=
  p.data.isPrefixOf s.data

/-- Python `str.lower`, character by character (spelled out on the character
list so that concrete instances reduce). -/
def pyLower (s : String) : String :=
  ⟨s.data.map Char.toLower⟩

/-- Helper for `pySplitDot`: accumulate the current segment (reversed). -/
def splitDotAux : List Char → List Char → List String
  | [], acc => [⟨acc.reverse⟩]
  | c :: rest, acc =>
      if c = '.' then (⟨acc.reverse⟩ : String) :: splitDotAux rest []
      else splitDotAux rest (c :: acc)

/-- Python `s.split(".")`: split on every dot, keeping empty segments. -/
def pySplitDot (s : String) : List String :=
  splitDotAux s.data []

namespace Sampling

/-- `SamplingStrategy` enum of sampling.py. -/
inductive Strategy where
  | all
  | random
  | clustering
  | adaptive
  | head
  | conditional
  deriving DecidableEq, Repr

/-- `SamplingConfig` dataclass of sampling.py. -/
structure SamplingConfig where
  strategy : Strategy
  base_rate : ℚ
  always_capture_errors : Bool
  always_capture_slow : Bool
  latency_threshold_ms : ℚ
  max_patterns_per_endpoint : ℕ
  head_count : ℕ
  adaptive_window_seconds : ℚ
  adaptive_error_multiplier : ℚ
  adaptive_max_rate : ℚ
  error_status_codes : List ℤ
  always_capture_endpoints : List String
  never_capture_endpoints : List String
  deriving Repr

/-- The mutable state held by a `Sampler` instance. -/
structure SamplerState where
  seen_patterns : List (String × List String)
  head_counts : List (String × ℕ)
  recent_requests : List (ℚ × Bool)
  adaptive_rate : ℚ
  deriving Repr, DecidableEq

/-- `Sampler.__init__`: empty per-scope state, adaptive rate starts at `base_rate`. -/
def initState (cfg : SamplingConfig) : SamplerState :=
  { seen_patterns := []
    head_counts := []
    recent_requests := []
    adaptive_rate := cfg.base_rate }

/-- `Sampler._should_skip_endpoint`: case-insensitive match against the
never-capture list (exact match or prefix). -/
def should_skip_endpoint (cfg : SamplingConfig) (endpoint : String) : Bool :=
  let endpoint_lower := pyLower endpoint
  cfg.never_capture_endpoints.any (fun skip =>
    endpoint_lower == pyLower skip || pyStartswith endpoint_lower (pyLower skip))

/-- `Sampler._should_always_capture_endpoint`: case-insensitive match against
the always-capture list (exact match or prefix). -/
def should_always_capture_endpoint (cfg : SamplingConfig) (endpoint : String) : Bool :=
  let endpoint_lower := pyLower endpoint
  cfg.always_capture_endpoints.any (fun always =>
    endpoint_lower == pyLower always || pyStartswith endpoint_lower (pyLower always))

/-- Request bodies as seen by `_create_pattern_hash`: either a dict (only its
key set matters) or some other value (only its type name matters). -/
inductive ReqBody where
  | rdict (keys : List String)
  | other (typeName : String)
  deriving DecidableEq, Repr

/-- Python `str(sorted(keys))` for a list of strings. -/
def pyReprStrList (l : List String) : String :=
  "[" ++ String.intercalate ", " (l.map (fun k => "'" ++ k ++ "'")) ++ "]"

/-- `Sampler._create_pattern_hash`: join method, endpoint, the sorted dict-key
repr (when the body is a dict), the type name (otherwise), and the sorted
query-param keys (when the query dict is truthy) with `"|"`.  The md5
truncation applied by the source is modelled as the identity on this string. -/
def create_pattern_hash (endpoint method : String) (request_body : Option ReqBody)
    (query_params : Option (List String)) : String :=
  let components := [method, endpoint]
  let components := components ++
    (match request_body with
     | none => []
     | some (ReqBody.rdict keys) => [pyReprStrList (keys.insertionSort (· ≤ ·))]
     | some (ReqBody.other typeName) => [typeName])
  let components := components ++
    (match query_params with
     | none => []
     | some [] => []
     | some keys => [pyReprStrList (keys.insertionSort (· ≤ ·))])
  String.intercalate "|" components

/-- `Sampler._sample_clustering`: capture unseen patterns while the scope's
seen-set is below the cap, otherwise fall back to random sampling at
`base_rate`.  The source first materialises an empty seen-set for a fresh
scope key; `aset` reproduces that mutation on every path. -/
def sample_clustering (cfg : SamplingConfig) (s : SamplerState)
    (endpoint method : String) (request_body : Option ReqBody)
    (query_params : Option (List String)) (draw : ℚ) : Bool × SamplerState :=
  let pattern_key := create_pattern_hash endpoint method request_body query_params
  let endpoint_key := method ++ ":" ++ endpoint
  let seen := alookupD s.seen_patterns endpoint_key []
  if pattern_key ∈ seen then
    (decide (draw < cfg.base_rate), { s with seen_patterns := aset s.seen_patterns endpoint_key seen })
  else if seen.length < cfg.max_patterns_per_endpoint then
    (true, { s with seen_patterns := aset s.seen_patterns endpoint_key (seen ++ [pattern_key]) })
  else
    (decide (draw < cfg.base_rate), { s with seen_patterns := aset s.seen_patterns endpoint_key seen })

/-- `Sampler._record_for_adaptive`: a no-op unless the configured strategy is
ADAPTIVE; otherwise append the record, prune entries at or before
`now - adaptive_window_seconds`, and recompute the adaptive rate when the
pruned window is non-empty. -/
def record_for_adaptive (cfg : SamplingConfig) (s : SamplerState) (now : ℚ)
    (is_error : Bool) : SamplerState :=
  if cfg.strategy ≠ Strategy.adaptive then s
  else
    let cutoff := now - cfg.adaptive_window_seconds
    let recent := (s.recent_requests ++ [(now, is_error)]).filter (fun p => cutoff < p.1)
    if 0 < recent.length then
      let error_count := (recent.filter (fun p => p.2)).length
      let error_rate : ℚ := (error_count : ℚ) / (recent.length : ℚ)
      if 0 < error_rate then
        { s with recent_requests := recent
                 adaptive_rate :=
                   min (cfg.base_rate * (1 + error_rate * cfg.adaptive_error_multiplier))
                     cfg.adaptive_max_rate }
      else
        { s with recent_requests := recent, adaptive_rate := cfg.base_rate }
    else
      { s with recent_requests := recent }

/-- The error rate of an adaptive window: error entries over total entries
(the `error_count / len(recent)` of `_record_for_adaptive`). -/
def windowErrorRate (w : List (ℚ × Bool)) : ℚ :=
  ((w.filter (fun p => p.2)).length : ℚ) / (w.length : ℚ)

/-- `Sampler._sample_head`: capture the first `head_count` events per scope key. -/
def sample_head (cfg : SamplingConfig) (s : SamplerState)
    (endpoint method : String) : Bool × SamplerState :=
  let endpoint_key := method ++ ":" ++ endpoint
  let count := alookupD s.head_counts endpoint_key 0
  if count < cfg.head_count then
    (true, { s with head_counts := aset s.head_counts endpoint_key (count + 1) })
  else
    (false, s)

/-- The error-override guard of `Sampler.should_capture` (step 3). -/
def errorHit (cfg : SamplingConfig) (status_code : Option ℤ) : Bool :=
  cfg.always_capture_errors &&
    (match status_code with
     | some c => decide (c ∈ cfg.error_status_codes)
     | none => false)

/-- The slow-override guard of `Sampler.should_capture` (step 4). -/
def slowHit (cfg : SamplingConfig) (duration_ms : Option ℚ) : Bool :=
  cfg.always_capture_slow &&
    (match duration_ms with
     | some d => decide (cfg.latency_threshold_ms ≤ d)
     | none => false)

/-- `Sampler.should_capture`: never-list, always-list, error override, slow
override, then strategy dispatch, in the source's order. -/
def should_capture (cfg : SamplingConfig) (s : SamplerState)
    (endpoint method : String) (status_code : Option ℤ) (duration_ms : Option ℚ)
    (request_body : Option ReqBody) (query_params : Option (List String))
    (now draw : ℚ) : Bool × SamplerState :=
  if should_skip_endpoint cfg endpoint then (false, s)
  else if should_always_capture_endpoint cfg endpoint then (true, s)
  else if errorHit cfg status_code then
    (true, record_for_adaptive cfg s now true)
  else if slowHit cfg duration_ms then (true, s)
  else
    match cfg.strategy with
    | Strategy.all => (true, s)
    | Strategy.random => (decide (draw < cfg.base_rate), s)
    | Strategy.clustering =>
        sample_clustering cfg s endpoint method request_body query_params draw
    | Strategy.adaptive =>
        let s' := record_for_adaptive cfg s now false
        (decide (draw < s'.adaptive_rate), s')
    | Strategy.head => sample_head cfg s endpoint method
    | Strategy.conditional => (false, s)

/-- One observed event: the inputs of a single `should_capture` call. -/
structure Event where
  endpoint : String
  method : String
  status_code : Option ℤ
  duration_ms : Option ℚ
  request_body : Option ReqBody
  query_params : Option (List String)
  now : ℚ
  draw : ℚ
  deriving Repr

/-- State after a sequence of `should_capture` calls. -/
def runEvents (cfg : SamplingConfig) (s : SamplerState) : List Event → SamplerState
  | [] => s
  | e :: rest =>
      runEvents cfg
        (should_capture cfg s e.endpoint e.method e.status_code e.duration_ms
          e.request_body e.query_params e.now e.draw).2 rest

/-- The decisions of a sequence of `should_capture` calls, in order. -/
def runDecisions (cfg : SamplingConfig) (s : SamplerState) : List Event → List Bool
  | [] => []
  | e :: rest =>
      let r := should_capture cfg s e.endpoint e.method e.status_code e.duration_ms
        e.request_body e.query_params e.now e.draw
      r.1 :: runDecisions cfg r.2 rest

end Sampling

namespace Limits

/-- `FunctionLimitConfig` dataclass of ui.py. -/
structure FunctionLimitConfig where
  limit_per_function : ℕ
  alert_on_limit : Bool
  limit_action : String
  overflow_sample_rate : ℚ
  deriving Repr, DecidableEq

/-- One entry of `FunctionLimitState.alerts` (timestamps are opaque rationals). -/
structure FnAlert where
  timestamp : ℚ
  function_name : String
  count : ℕ
  message : String
  deriving Repr, DecidableEq

/-- `FunctionLimitState` dataclass of ui.py. -/
structure FunctionLimitState where
  counts : List (String × ℕ)
  alerts : List FnAlert
  stopped_functions : List String
  deriving Repr, DecidableEq

/-- A `FunctionLimiter` instance: config, per-function overrides, enabled
flag and mutable state. -/
structure FunctionLimiter where
  config : FunctionLimitConfig
  function_configs : List (String × FunctionLimitConfig)
  enabled : Bool
  state : FunctionLimitState
  deriving Repr, DecidableEq

/-- `FunctionLimiter.get_config`: per-function override when the name is
truthy and present, else the default config. -/
def FunctionLimiter.get_config (L : FunctionLimiter) (function_name : Option String) :
    FunctionLimitConfig :=
  match function_name with
  | some f =>
      if f ≠ "" then
        match alookup L.function_configs f with
        | some c => c
        | none => L.config
      else L.config
  | none => L.config

/-- The alert record appended by `FunctionLimiter.should_capture`. -/
def mkFnAlert (now : ℚ) (function_name : String) (count : ℕ) (limit : ℕ) : FnAlert :=
  { timestamp := now
    function_name := function_name
    count := count
    message := "Capture limit (" ++ toString limit ++ ") reached for function '"
      ++ function_name ++ "'" }

/-- `FunctionLimiter.should_capture`: stopped keys are denied (or overflow
sampled); otherwise the count is checked against the limit before and after
incrementing, with stop marking and alert dedup exactly as in the source. -/
def FunctionLimiter.should_capture (L : FunctionLimiter) (function_name : String)
    (now draw : ℚ) : Bool × FunctionLimiter :=
  if !L.enabled then (true, L)
  else
    let config := L.get_config (some function_name)
    if function_name ∈ L.state.stopped_functions then
      if config.limit_action = "stop" then (false, L)
      else (decide (draw < config.overflow_sample_rate), L)
    else
      let count := alookupD L.state.counts function_name 0
      if config.limit_per_function ≤ count then
        let st :=
          if function_name ∉ L.state.stopped_functions then
            { L.state with
                stopped_functions := sinsert L.state.stopped_functions function_name
                alerts :=
                  if config.alert_on_limit then
                    L.state.alerts ++ [mkFnAlert now function_name count config.limit_per_function]
                  else L.state.alerts }
          else L.state
        if config.limit_action = "stop" then (false, { L with state := st })
        else (decide (draw < config.overflow_sample_rate), { L with state := st })
      else
        let counts' := aset L.state.counts function_name (count + 1)
        let st :=
          if config.limit_per_function ≤ count + 1 then
            if function_name ∉ L.state.stopped_functions then
              { L.state with
                  counts := counts'
                  stopped_functions := sinsert L.state.stopped_functions function_name
                  alerts :=
                    if config.alert_on_limit then
                      L.state.alerts ++ [mkFnAlert now function_name (count + 1) config.limit_per_function]
                    else L.state.alerts }
            else { L.state with counts := counts' }
          else { L.state with counts := counts' }
        (true, { L with state := st })

/-- `FunctionLimiter.reset_function`: drop the key's count, discard it from
the stopped set, and return `true`. -/
def FunctionLimiter.reset_function (L : FunctionLimiter) (function_name : String) :
    FunctionLimiter × Bool :=
  ({ L with state :=
      { L.state with
          counts := aerase L.state.counts function_name
          stopped_functions := sdiscard L.state.stopped_functions function_name } },
   true)

/-- One `FunctionLimiter.should_capture` call: key, timestamp and draw. -/
structure FnCall where
  function_name : String
  now : ℚ
  draw : ℚ
  deriving Repr

/-- Limiter state after a sequence of `should_capture` calls. -/
def fnRunSeq (L : FunctionLimiter) : List FnCall → FunctionLimiter
  | [] => L
  | c :: rest => fnRunSeq (L.should_capture c.function_name c.now c.draw).2 rest

/-- Decisions of `m` successive `should_capture` calls on the same key, with
timestamps and draws supplied by the stream `env`. -/
def fnRunKey (L : FunctionLimiter) (function_name : String) (env : ℕ → ℚ × ℚ) :
    ℕ → List Bool × FunctionLimiter
  | 0 => ([], L)
  | m + 1 =>
      let r := fnRunKey L function_name env m
      let step := r.2.should_capture function_name (env m).1 (env m).2
      (r.1 ++ [step.1], step.2)

/-- A freshly constructed, enabled `FunctionLimiter` with empty state and no
per-function overrides. -/
def freshFnLimiter (cfg : FunctionLimitConfig) : FunctionLimiter :=
  { config := cfg
    function_configs := []
    enabled := true
    state := { counts := [], alerts := [], stopped_functions := [] } }

/-- `TypeLimitConfig` dataclass of ui.py. -/
structure TypeLimitConfig where
  field_path : String
  limit_per_type : ℕ
  alert_on_limit : Bool
  limit_action : String
  overflow_sample_rate : ℚ
  deriving Repr, DecidableEq

/-- One entry of `TypeLimitState.alerts`. -/
structure TypeAlert where
  timestamp : ℚ
  type_value : String
  count : ℕ
  endpoint : String
  message : String
  deriving Repr, DecidableEq

/-- `TypeLimitState` dataclass of ui.py. -/
structure TypeLimitState where
  counts : List (String × ℕ)
  alerts : List TypeAlert
  stopped_types : List String
  deriving Repr, DecidableEq

/-- A `TypeLimiter` instance: config, per-endpoint overrides, enabled flag
and mutable state. -/
structure TypeLimiter where
  config : TypeLimitConfig
  endpoints : List (String × TypeLimitConfig)
  enabled : Bool
  state : TypeLimitState
  deriving Repr, DecidableEq

/-- `TypeLimiter.get_config`: per-endpoint override when the endpoint is
truthy and present, else the default config. -/
def TypeLimiter.get_config (L : TypeLimiter) (endpoint : Option String) :
    TypeLimitConfig :=
  match endpoint with
  | some e =>
      if e ≠ "" then
        match alookup L.endpoints e with
        | some c => c
        | none => L.config
      else L.config
  | none => L.config

/-- Decoded Python values as they appear in a request body: `None`, a dict,
a string, an int, or any other object (only its type name is retained). -/
inductive PyVal where
  | vnone
  | vdict (entries : List (String × PyVal))
  | vstr (s : String)
  | vint (n : ℤ)
  | vother (typeName : String)
  deriving Repr

/-- Python `str(...)` on the values reachable by path extraction.  The repr
of composite values is abstracted; only its totality matters here. -/
def pyStr : PyVal → String
  | PyVal.vnone => "None"
  | PyVal.vdict _ => "<dict>"
  | PyVal.vstr s => s
  | PyVal.vint n => toString n
  | PyVal.vother typeName => "<" ++ typeName ++ ">"

/-- The path-walking loop of `TypeLimiter._extract_type_value`: follow each
segment through nested dicts, failing as soon as a segment is missing or an
intermediate value is not a dict. -/
def walkPath : PyVal → List String → Option PyVal
  | cur, [] => some cur
  | PyVal.vdict entries, part :: rest =>
      match alookup entries part with
      | some v => walkPath v rest
      | none => none
  | _, _ :: _ => none

/-- `TypeLimiter._extract_type_value`: `None` and non-dict bodies yield no
type value; otherwise walk the dotted field path, and stringify the result
unless it is `None`. -/
def extract_type_value (body : PyVal) (field_path : String) : Option String :=
  match body with
  | PyVal.vdict entries =>
      match walkPath (PyVal.vdict entries) (pySplitDot field_path) with
      | some PyVal.vnone => none
      | some v => some (pyStr v)
      | none => none
  | _ => none

/-- The alert record appended by `TypeLimiter.should_capture`. -/
def mkTypeAlert (now : ℚ) (type_value : String) (count : ℕ) (endpoint : String)
    (limit : ℕ) : TypeAlert :=
  { timestamp := now
    type_value := type_value
    count := count
    endpoint := endpoint
    message := "Capture limit (" ++ toString limit ++ ") reached for type '"
      ++ type_value ++ "'" }

/-- `TypeLimiter.should_capture`: fail-open when disabled or when no type
value can be extracted; otherwise the same per-key quota algorithm as
`FunctionLimiter.should_capture`, keyed by the extracted type value. -/
def TypeLimiter.should_capture (L : TypeLimiter) (endpoint : String)
    (request_body : PyVal) (now draw : ℚ) : (Bool × Option String) × TypeLimiter :=
  if !L.enabled then ((true, none), L)
  else
    let config := L.get_config (some endpoint)
    match extract_type_value request_body config.field_path with
    | none => ((true, none), L)
    | some type_value =>
      if type_value ∈ L.state.stopped_types then
        if config.limit_action = "stop" then ((false, some type_value), L)
        else ((decide (draw < config.overflow_sample_rate), some type_value), L)
      else
        let count := alookupD L.state.counts type_value 0
        if config.limit_per_type ≤ count then
          let st :=
            if type_value ∉ L.state.stopped_types then
              { L.state with
                  stopped_types := sinsert L.state.stopped_types type_value
                  alerts :=
                    if config.alert_on_limit then
                      L.state.alerts ++ [mkTypeAlert now type_value count endpoint config.limit_per_type]
                    else L.state.alerts }
            else L.state
          if config.limit_action = "stop" then ((false, some type_value), { L with state := st })
          else ((decide (draw < config.overflow_sample_rate), some type_value), { L with state := st })
        else
          let counts' := aset L.state.counts type_value (count + 1)
          let st :=
            if config.limit_per_type ≤ count + 1 then
              if type_value ∉ L.state.stopped_types then
                { L.state with
                    counts := counts'
                    stopped_types := sinsert L.state.stopped_types type_value
                    alerts :=
                      if config.alert_on_limit then
                        L.state.alerts ++ [mkTypeAlert now type_value (count + 1) endpoint config.limit_per_type]
                      else L.state.alerts }
              else { L.state with counts := counts' }
            else { L.state with counts := counts' }
          ((true, some type_value), { L with state := st })

/-- `TypeLimiter.reset_type`: drop the type's count, discard it from the
stopped set, and return `true`. -/
def TypeLimiter.reset_type (L : TypeLimiter) (type_value : String) :
    TypeLimiter × Bool :=
  ({ L with state :=
      { L.state with
          counts := aerase L.state.counts type_value
          stopped_types := sdiscard L.state.stopped_types type_value } },
   true)

/-- A freshly constructed, enabled `TypeLimiter` with empty state and no
per-endpoint overrides. -/
def freshTypeLimiter (cfg : TypeLimitConfig) : TypeLimiter :=
  { config := cfg
    endpoints := []
    enabled := true
    state := { counts := [], alerts := [], stopped_types := [] } }

/-- One `TypeLimiter.should_capture` call: endpoint, body, timestamp and draw. -/
structure TyCall where
  endpoint : String
  request_body : PyVal
  now : ℚ
  draw : ℚ

/-- Limiter state after a sequence of `TypeLimiter.should_capture` calls. -/
def tyRunSeq (L : TypeLimiter) : List TyCall → TypeLimiter
  | [] => L
  | c :: rest => tyRunSeq (L.should_capture c.endpoint c.request_body c.now c.draw).2 rest

/-- Decisions of `m` successive `TypeLimiter.should_capture` calls on the same
endpoint and body, with timestamps and draws supplied by the stream `env`. -/
def tyRunKey (L : TypeLimiter) (endpoint : String) (request_body : PyVal)
    (env : ℕ → ℚ × ℚ) : ℕ → List Bool × TypeLimiter
  | 0 => ([], L)
  | m + 1 =>
      let r := tyRunKey L endpoint request_body env m
      let step := r.2.should_capture endpoint request_body (env m).1 (env m).2
      (r.1 ++ [step.1.1], step.2)

end Limits

open Sampling Limits

/-! ### Concrete instances used by witnesses and counterexamples -/

/-- The `SamplingConfig` dataclass defaults of sampling.py. -/
def defaultSamplingConfig : SamplingConfig :=
  { strategy := Strategy.random
    base_rate := 1/10
    always_capture_errors := true
    always_capture_slow := true
    latency_threshold_ms := 1000
    max_patterns_per_endpoint := 100
    head_count := 100
    adaptive_window_seconds := 60
    adaptive_error_multiplier := 5
    adaptive_max_rate := 1
    error_status_codes := [400, 401, 403, 404, 405, 408, 409, 410, 422, 429,
                           500, 501, 502, 503, 504]
    always_capture_endpoints := []
    never_capture_endpoints := ["/health", "/healthz", "/ready", "/readiness",
                                "/metrics", "/favicon.ico"] }

/-- Config whose never-include and always-include lists both match `/api`. -/
def cfgC4w : SamplingConfig :=
  { defaultSamplingConfig with
      strategy := Strategy.all
      base_rate := 0
      always_capture_endpoints := ["/api"]
      never_capture_endpoints := ["/api"] }

/-- Modelled from the spec's words (for comparison with the source matcher):
endpoint `e` matches configured entry `p` iff `lowercase(e)` equals
`lowercase(p)` or starts with it. -/
def specScopeMatch (e p : String) : Prop :=
  pyLower e = pyLower p ∨ ∃ r, (pyLower e).data = (pyLower p).data ++ r

/-- Config whose never-include list holds the mixed-case entry `/Health`. -/
def cfgC10w : SamplingConfig :=
  { defaultSamplingConfig with
      base_rate := 0
      never_capture_endpoints := ["/Health"] }

/-- The `QuotaConfig` of C1: limit 3 per key, alerting, stop on limit. -/
def cfgC1 : FunctionLimitConfig :=
  { limit_per_function := 3
    alert_on_limit := true
    limit_action := "stop"
    overflow_sample_rate := 1/100 }

/-- The category-keyed counterpart of `cfgC1` (field path `type`). -/
def tyCfgC1 : TypeLimitConfig :=
  { field_path := "type"
    limit_per_type := 3
    alert_on_limit := true
    limit_action := "stop"
    overflow_sample_rate := 1/100 }

/-- A payload whose `type` field is `"A"`. -/
def bodyA : PyVal :=
  PyVal.vdict [("type", PyVal.vstr "A")]

/-- An all-zero stream of timestamps and draws. -/
def envZero : ℕ → ℚ × ℚ := fun _ => (0, 0)

/-- A category-keyed limiter config with a nested field path `data.type`. -/
def tyCfgC8 : TypeLimitConfig :=
  { field_path := "data.type"
    limit_per_type := 3
    alert_on_limit := true
    limit_action := "stop"
    overflow_sample_rate := 1/100 }

/-- A payload carrying `data` but no `data.type` (the inner value is not a
dict, so the second path segment cannot be resolved). -/
def bodyC8 : PyVal :=
  PyVal.vdict [("data", PyVal.vint 7)]

/-- A scope-keyed limiter whose key `A` has already stopped at count 3. -/
def fnL3 : FunctionLimiter :=
  { config := cfgC1
    function_configs := []
    enabled := true
    state := { counts := [("A", 3)]
               alerts := [mkFnAlert 0 "A" 3 3]
               stopped_functions := ["A"] } }

/-- A category-keyed limiter whose type `A` has already stopped at count 3. -/
def tyL3 : TypeLimiter :=
  { config := tyCfgC1
    endpoints := []
    enabled := true
    state := { counts := [("A", 3)]
               alerts := [mkTypeAlert 0 "A" 3 "/e" 3]
               stopped_types := ["A"] } }

/-- The clustering config of C5: cap of 2 patterns per scope, base rate 0. -/
def cfgC5 : SamplingConfig :=
  { defaultSamplingConfig with
      strategy := Strategy.clustering
      base_rate := 0
      max_patterns_per_endpoint := 2
      always_capture_endpoints := []
      never_capture_endpoints := [] }

/-- A C5 event: a `POST /api` request whose body has the given field names
(no status, no duration, no query params). -/
def evC5 (keys : List String) (draw : ℚ) : Event :=
  { endpoint := "/api"
    method := "POST"
    status_code := none
    duration_ms := none
    request_body := some (ReqBody.rdict keys)
    query_params := none
    now := 0
    draw := draw }

/-- Shorthand for the state update `sample_clustering` performs on the
seen-pattern map. -/
def withSeen (s : SamplerState) (ek : String) (seen : List String) : SamplerState :=
  { s with seen_patterns := aset s.seen_patterns ek seen }

/-- A random-strategy config with error capture on (C2's counterexample). -/
def cfgC2x : SamplingConfig :=
  { defaultSamplingConfig with
      strategy := Strategy.random
      base_rate := 0
      error_status_codes := [500]
      always_capture_endpoints := []
      never_capture_endpoints := [] }

/-- The adaptive config of C6: base 1/10, multiplier 5, max 1. -/
def cfgAdapt : SamplingConfig :=
  { defaultSamplingConfig with
      strategy := Strategy.adaptive
      error_status_codes := [500]
      always_capture_endpoints := []
      never_capture_endpoints := [] }

/-- An error event (status 500) at time 0. -/
def errEvC6 : Event :=
  { endpoint := "/api"
    method := "GET"
    status_code := some 500
    duration_ms := none
    request_body := none
    query_params := none
    now := 0
    draw := 0 }

/-- A non-error, non-slow event at time 0. -/
def plainEv : Event :=
  { endpoint := "/api"
    method := "GET"
    status_code := none
    duration_ms := none
    request_body := none
    query_params := none
    now := 0
    draw := 0 }

/-- An adaptive config whose base rate exceeds its max rate — constructible,
since the source performs no configuration validation. -/
def cfgBaseGtMax : SamplingConfig :=
  { defaultSamplingConfig with
      strategy := Strategy.adaptive
      base_rate := 1
      adaptive_max_rate := 1/2 }

/-! ### Helper lemmas about the dict/set primitives -/

theorem alookup_aset_self {α : Type} (l : List (String × α)) (k : String) (v : α) :
    alookup (aset l k v) k = some v := by
  induction l with
  | nil => simp [aset, alookup]
  | cons p rest ih =>
      by_cases h : p.1 = k
      · simp [aset, alookup, h]
      · cases p with
        | mk k' v' =>
          simp only at h
          simp [aset, alookup, h, ih]

theorem alookup_aset_ne {α : Type} (l : List (String × α)) (k k' : String) (v : α)
    (h : k' ≠ k) : alookup (aset l k v) k' = alookup l k' := by
  have h' : k ≠ k' := Ne.symm h
  induction l with
  | nil => simp [aset, alookup, h']
  | cons p rest ih =>
      cases p with
      | mk k₀ v₀ =>
        by_cases h0 : k₀ = k
        · subst h0
          simp [aset, alookup, h']
        · simp only [aset, if_neg h0]
          by_cases h1 : k₀ = k'
          · simp [alookup, h1]
          · simp [alookup, h1, ih]

theorem alookupD_aset_self {α : Type} (l : List (String × α)) (k : String) (v d : α) :
    alookupD (aset l k v) k d = v := by
  simp [alookupD, alookup_aset_self]

theorem alookupD_aset_ne {α : Type} (l : List (String × α)) (k k' : String) (v d : α)
    (h : k' ≠ k) : alookupD (aset l k v) k' d = alookupD l k' d := by
  simp [alookupD, alookup_aset_ne l k k' v h]

theorem alookup_eq_none_iff {α : Type} (l : List (String × α)) (k : String) :
    alookup l k = none ↔ ∀ p ∈ l, p.1 ≠ k := by
  induction l with
  | nil => simp [alookup]
  | cons p rest ih =>
      cases p with
      | mk k' v =>
        by_cases h : k' = k
        · simp [alookup, h]
        · simp [alookup, h, ih]

theorem aerase_aerase {α : Type} (l : List (String × α)) (k : String) :
    aerase (aerase l k) k = aerase l k := by
  simp [aerase, List.filter_filter]

theorem aerase_eq_self {α : Type} (l : List (String × α)) (k : String)
    (h : alookup l k = none) : aerase l k = l := by
  refine List.filter_eq_self.mpr ?_
  intro p hp
  exact decide_eq_true ((alookup_eq_none_iff l k).mp h p hp)

theorem sdiscard_sdiscard (l : List String) (x : String) :
    sdiscard (sdiscard l x) x = sdiscard l x := by
  simp [sdiscard, List.filter_filter]

theorem sdiscard_eq_self (l : List String) (x : String) (h : x ∉ l) :
    sdiscard l x = l := by
  refine List.filter_eq_self.mpr ?_
  intro y hy
  refine decide_eq_true ?_
  intro hxy
  exact h (hxy ▸ hy)

theorem mem_sinsert_self (l : List String) (x : String) : x ∈ sinsert l x := by
  by_cases h : x ∈ l <;> simp [sinsert, h]

theorem mem_sinsert_of_mem (l : List String) (x y : String) (h : y ∈ l) :
    y ∈ sinsert l x := by
  by_cases hx : x ∈ l <;> simp [sinsert, hx, h]

/-- An endpoint matching the never-include list short-circuits
`should_capture` to `(false, s)`. -/
theorem skip_shortcircuit (cfg : SamplingConfig) (s : SamplerState)
    (endpoint method : String) (status_code : Option ℤ) (duration_ms : Option ℚ)
    (request_body : Option ReqBody) (query_params : Option (List String))
    (now draw : ℚ) (h : should_skip_endpoint cfg endpoint = true) :
    should_capture cfg s endpoint method status_code duration_ms request_body
      query_params now draw = (false, s) := by
  simp [should_capture, h]

/-- C4: if the scope key matches a never-include prefix, `Decide` returns
`false` — even when the key also matches an always-include prefix — and the
sampler state (seen patterns, head counters, adaptive window) is returned
unchanged. -/
theorem c4_never_include_wins_no_mutation (cfg : SamplingConfig) (s : SamplerState)
    (endpoint method : String) (status_code : Option ℤ) (duration_ms : Option ℚ)
    (request_body : Option ReqBody) (query_params : Option (List String))
    (now draw : ℚ) (h : should_skip_endpoint cfg endpoint = true) :
    should_capture cfg s endpoint method status_code duration_ms request_body
      query_params now draw = (false, s) :=
  skip_shortcircuit cfg s endpoint method status_code duration_ms request_body
    query_params now draw h

/-- Witness for C4: `/api/users` matches both the never-include and the
always-include prefix `/api` of `cfgC4w`, and `Decide` still returns `false`
with the state unchanged. -/
theorem c4_witness :
    should_skip_endpoint cfgC4w "/api/users" = true ∧
    should_always_capture_endpoint cfgC4w "/api/users" = true ∧
    should_capture cfgC4w (initState cfgC4w) "/api/users" "GET" (some 500)
      (some 2000) none none 0 0 = (false, initState cfgC4w) :=
  ⟨by decide, by decide,
   c4_never_include_wins_no_mutation cfgC4w (initState cfgC4w) "/api/users" "GET"
     (some 500) (some 2000) none none 0 0 (by decide)⟩

/-- Python `startswith` agrees with "there is a suffix completing the string". -/
theorem pyStartswith_iff (s p : String) :
    pyStartswith s p = true ↔ ∃ r, s.data = p.data ++ r := by
  simp only [pyStartswith, List.isPrefixOf_iff_prefix]
  constructor
  · rintro ⟨t, ht⟩
    exact ⟨t, ht.symm⟩
  · rintro ⟨t, ht⟩
    exact ⟨t, ht.symm⟩

/-- C10: membership tests against both scope lists are case-insensitive
prefix matches — the source matcher agrees with the spec predicate
`specScopeMatch` on every entry, matching is invariant under case changes of
the endpoint, and an endpoint equal to a never-include entry up to case is
rejected by `Decide`. -/
theorem c10_scope_matching_case_insensitive :
    (∀ (cfg : SamplingConfig) (e : String),
       should_skip_endpoint cfg e = true ↔
         ∃ p ∈ cfg.never_capture_endpoints, specScopeMatch e p) ∧
    (∀ (cfg : SamplingConfig) (e : String),
       should_always_capture_endpoint cfg e = true ↔
         ∃ p ∈ cfg.always_capture_endpoints, specScopeMatch e p) ∧
    (∀ (cfg : SamplingConfig) (e₁ e₂ : String), pyLower e₁ = pyLower e₂ →
       should_skip_endpoint cfg e₁ = should_skip_endpoint cfg e₂ ∧
       should_always_capture_endpoint cfg e₁ = should_always_capture_endpoint cfg e₂) ∧
    (∀ (cfg : SamplingConfig) (s : SamplerState) (e p method : String)
       (status_code : Option ℤ) (duration_ms : Option ℚ)
       (request_body : Option ReqBody) (query_params : Option (List String))
       (now draw : ℚ),
       p ∈ cfg.never_capture_endpoints → pyLower e = pyLower p →
       should_capture cfg s e method status_code duration_ms request_body
         query_params now draw = (false, s)) := by
  refine ⟨?_, ?_, ?_, ?_⟩
  · intro cfg e
    simp [should_skip_endpoint, List.any_eq_true, pyStartswith_iff, specScopeMatch]
  · intro cfg e
    simp [should_always_capture_endpoint, List.any_eq_true, pyStartswith_iff, specScopeMatch]
  · intro cfg e₁ e₂ h
    constructor
    · simp only [should_skip_endpoint, h]
    · simp only [should_always_capture_endpoint, h]
  · intro cfg s e p method status_code duration_ms request_body query_params now draw hp he
    apply skip_shortcircuit
    simp only [should_skip_endpoint, List.any_eq_true]
    exact ⟨p, hp, by simp [he]⟩

/-- Witness for C10: `/HEALTH` differs from the configured never-include
entry `/Health` only in letter case, matches it, and is rejected. -/
theorem c10_witness :
    should_skip_endpoint cfgC10w "/HEALTH" = true ∧
    should_capture cfgC10w (initState cfgC10w) "/HEALTH" "GET" none none
      none none 0 0 = (false, initState cfgC10w) := by
  have h := c10_scope_matching_case_insensitive
  refine ⟨?_, ?_⟩
  · exact (h.1 cfgC10w "/HEALTH").mpr ⟨"/Health", by decide, Or.inl (by decide)⟩
  · exact h.2.2.2 cfgC10w (initState cfgC10w) "/HEALTH" "/Health" "GET" none none
      none none 0 0 (by decide) (by decide)

/-- C8: with limiting enabled, whenever the configured field path cannot be
extracted from the payload (`None` payload, non-dict payload, or a missing
path segment), `Decide` fails open: `(true, no category)` and the limiter is
unchanged. -/
theorem c8_extraction_fail_open :
    (∀ (L : TypeLimiter) (endpoint : String) (body : PyVal) (now draw : ℚ),
       L.enabled = true →
       extract_type_value body (L.get_config (some endpoint)).field_path = none →
       L.should_capture endpoint body now draw = ((true, none), L)) ∧
    (∀ path, extract_type_value PyVal.vnone path = none) ∧
    (∀ path s, extract_type_value (PyVal.vstr s) path = none) ∧
    (∀ path n, extract_type_value (PyVal.vint n) path = none) ∧
    (∀ path t, extract_type_value (PyVal.vother t) path = none) ∧
    (∀ (entries : List (String × PyVal)) (part : String) (rest : List String),
       alookup entries part = none →
       walkPath (PyVal.vdict entries) (part :: rest) = none) := by
  refine ⟨?_, ?_, ?_, ?_, ?_, ?_⟩
  · intro L endpoint body now draw hen hex
    simp [TypeLimiter.should_capture, hen, hex]
  · intro path
    simp [extract_type_value]
  · intro path s
    simp [extract_type_value]
  · intro path n
    simp [extract_type_value]
  · intro path t
    simp [extract_type_value]
  · intro entries part rest h
    simp [walkPath, h]

/-- Witness for C8: the limiter config asks for `data.type`, the payload's
`data` is the integer `7`, so extraction fails and the call fails open. -/
theorem c8_witness :
    (freshTypeLimiter tyCfgC8).enabled = true ∧
    extract_type_value bodyC8
      ((freshTypeLimiter tyCfgC8).get_config (some "/e")).field_path = none ∧
    (freshTypeLimiter tyCfgC8).should_capture "/e" bodyC8 0 0
      = ((true, none), freshTypeLimiter tyCfgC8) := by
  refine ⟨rfl, by decide, ?_⟩
  exact c8_extraction_fail_open.1 (freshTypeLimiter tyCfgC8) "/e" bodyC8 0 0 rfl (by decide)

/-- C9: `Reset` is idempotent for both limiters — resetting a key twice
equals resetting it once, and resetting a key with no count and no stopped
flag (in particular a key never seen) is a no-op.  Both facts also show the
operation is total: it never errors. -/
theorem c9_reset_idempotent :
    (∀ (L : FunctionLimiter) (k : String),
       ((L.reset_function k).1.reset_function k).1 = (L.reset_function k).1) ∧
    (∀ (L : TypeLimiter) (k : String),
       ((L.reset_type k).1.reset_type k).1 = (L.reset_type k).1) ∧
    (∀ (L : FunctionLimiter) (k : String), alookup L.state.counts k = none →
       k ∉ L.state.stopped_functions → (L.reset_function k).1 = L) ∧
    (∀ (L : TypeLimiter) (k : String), alookup L.state.counts k = none →
       k ∉ L.state.stopped_types → (L.reset_type k).1 = L) := by
  refine ⟨?_, ?_, ?_, ?_⟩
  · intro L k
    simp [FunctionLimiter.reset_function, aerase_aerase, sdiscard_sdiscard]
  · intro L k
    simp [TypeLimiter.reset_type, aerase_aerase, sdiscard_sdiscard]
  · intro L k hc hs
    simp [FunctionLimiter.reset_function, aerase_eq_self _ _ hc, sdiscard_eq_self _ _ hs]
  · intro L k hc hs
    simp [TypeLimiter.reset_type, aerase_eq_self _ _ hc, sdiscard_eq_self _ _ hs]

/-- Witness for C9: resetting the never-seen key `B` on fresh limiters is a
no-op, and a second reset of a seen key changes nothing. -/
theorem c9_witness :
    ((freshFnLimiter cfgC1).reset_function "B").1 = freshFnLimiter cfgC1 ∧
    ((freshTypeLimiter tyCfgC1).reset_type "B").1 = freshTypeLimiter tyCfgC1 ∧
    (((freshFnLimiter cfgC1).reset_function "A").1.reset_function "A").1
      = ((freshFnLimiter cfgC1).reset_function "A").1 := by
  refine ⟨?_, ?_, ?_⟩
  · exact c9_reset_idempotent.2.2.1 (freshFnLimiter cfgC1) "B" rfl (by simp [freshFnLimiter])
  · exact c9_reset_idempotent.2.2.2 (freshTypeLimiter tyCfgC1) "B" rfl (by simp [freshTypeLimiter])
  · exact c9_reset_idempotent.1 (freshFnLimiter cfgC1) "A"

/-- With no per-function overrides, `get_config` returns the default config. -/
theorem get_config_no_overrides (L : FunctionLimiter) (fn : String)
    (h : L.function_configs = []) : L.get_config (some fn) = L.config := by
  by_cases hfn : fn = "" <;> simp [FunctionLimiter.get_config, h, hfn, alookup]

/-- State characterization of `m` quota decisions on a single fresh key with
`limit_action = stop`: the decisions are true exactly below the limit, the
count is `min m limit`, and the key is stopped exactly from the limit on. -/
theorem fnRunKey_spec (cfgQ : FunctionLimitConfig) (hstop : cfgQ.limit_action = "stop")
    (hn : 1 ≤ cfgQ.limit_per_function) (fn : String) (env : ℕ → ℚ × ℚ) (m : ℕ) :
    (fnRunKey (freshFnLimiter cfgQ) fn env m).1
      = (List.range m).map (fun i => decide (i < cfgQ.limit_per_function)) ∧
    (fnRunKey (freshFnLimiter cfgQ) fn env m).2.config = cfgQ ∧
    (fnRunKey (freshFnLimiter cfgQ) fn env m).2.function_configs = [] ∧
    (fnRunKey (freshFnLimiter cfgQ) fn env m).2.enabled = true ∧
    alookupD (fnRunKey (freshFnLimiter cfgQ) fn env m).2.state.counts fn 0
      = min m cfgQ.limit_per_function ∧
    (fn ∈ (fnRunKey (freshFnLimiter cfgQ) fn env m).2.state.stopped_functions
      ↔ cfgQ.limit_per_function ≤ m) := by
  induction m with
  | zero =>
      refine ⟨rfl, rfl, rfl, rfl, ?_, ?_⟩
      · simp [fnRunKey, freshFnLimiter, alookupD, alookup]
      · simp only [fnRunKey, freshFnLimiter]
        simp
        omega
  | succ m ih =>
      obtain ⟨hds, hcfg, hfc, hen, hcnt, hstp⟩ := ih
      have hgc : (fnRunKey (freshFnLimiter cfgQ) fn env m).2.get_config (some fn) = cfgQ := by
        rw [get_config_no_overrides _ _ hfc, hcfg]
      by_cases hm : cfgQ.limit_per_function ≤ m
      · -- the key is already stopped: the call is denied and nothing changes
        have hstopped : fn ∈ (fnRunKey (freshFnLimiter cfgQ) fn env m).2.state.stopped_functions :=
          hstp.mpr hm
        have hstep : (fnRunKey (freshFnLimiter cfgQ) fn env m).2.should_capture fn
            (env m).1 (env m).2 = (false, (fnRunKey (freshFnLimiter cfgQ) fn env m).2) := by
          simp [FunctionLimiter.should_capture, hen, hgc, hstopped, hstop]
        refine ⟨?_, ?_, ?_, ?_, ?_, ?_⟩
        · simp [fnRunKey, hstep, hds, List.range_succ]
          omega
        · simp [fnRunKey, hstep, hcfg]
        · simp [fnRunKey, hstep, hfc]
        · simp [fnRunKey, hstep, hen]
        · simp [fnRunKey, hstep]
          omega
        · simp [fnRunKey, hstep, hstopped]
          omega
      · -- the key is still active: the call is allowed and counted
        have hnotstopped : fn ∉ (fnRunKey (freshFnLimiter cfgQ) fn env m).2.state.stopped_functions := by
          intro hmem
          exact hm (hstp.mp hmem)
        have hcountm : alookupD (fnRunKey (freshFnLimiter cfgQ) fn env m).2.state.counts fn 0 = m := by
          rw [hcnt]
          omega
        have hlt : ¬ cfgQ.limit_per_function ≤ m := hm
        by_cases hhit : cfgQ.limit_per_function ≤ m + 1
        · -- this call crosses the boundary: allowed, then the key stops
          have hstep : (fnRunKey (freshFnLimiter cfgQ) fn env m).2.should_capture fn
              (env m).1 (env m).2 =
              (true, { (fnRunKey (freshFnLimiter cfgQ) fn env m).2 with state :=
                { (fnRunKey (freshFnLimiter cfgQ) fn env m).2.state with
                    counts := aset (fnRunKey (freshFnLimiter cfgQ) fn env m).2.state.counts fn (m + 1)
                    stopped_functions :=
                      sinsert (fnRunKey (freshFnLimiter cfgQ) fn env m).2.state.stopped_functions fn
                    alerts := (fnRunKey (freshFnLimiter cfgQ) fn env m).2.state.alerts ++
                      (if cfgQ.alert_on_limit then
                        [mkFnAlert (env m).1 fn (m + 1) cfgQ.limit_per_function] else []) } }) := by
            by_cases hal : cfgQ.alert_on_limit <;>
              simp [FunctionLimiter.should_capture, hen, hgc, hnotstopped, hcountm, hlt, hhit, hal]
          refine ⟨?_, ?_, ?_, ?_, ?_, ?_⟩
          · simp [fnRunKey, hstep, hds, List.range_succ]
            omega
          · simp [fnRunKey, hstep, hcfg]
          · simp [fnRunKey, hstep, hfc]
          · simp [fnRunKey, hstep, hen]
          · simp [fnRunKey, hstep, alookupD_aset_self]
            omega
          · simp [fnRunKey, hstep, mem_sinsert_self]
            omega
        · -- still strictly below the limit: allowed, count incremented
          have hstep : (fnRunKey (freshFnLimiter cfgQ) fn env m).2.should_capture fn
              (env m).1 (env m).2 =
              (true, { (fnRunKey (freshFnLimiter cfgQ) fn env m).2 with state :=
                { (fnRunKey (freshFnLimiter cfgQ) fn env m).2.state with
                    counts := aset (fnRunKey (freshFnLimiter cfgQ) fn env m).2.state.counts fn (m + 1) } }) := by
            simp [FunctionLimiter.should_capture, hen, hgc, hnotstopped, hcountm, hlt, hhit]
          refine ⟨?_, ?_, ?_, ?_, ?_, ?_⟩
          · simp [fnRunKey, hstep, hds, List.range_succ]
            omega
          · simp [fnRunKey, hstep, hcfg]
          · simp [fnRunKey, hstep, hfc]
          · simp [fnRunKey, hstep, hen]
          · simp [fnRunKey, hstep, alookupD_aset_self]
            omega
          · simp [fnRunKey, hstep, hnotstopped]
            omega

/-- C1: the quota boundary is inclusive.  Concretely (limit 3, stop,
alerting): five decisions on key `A` give `[true, true, true, false, false]`
with exactly one alert whose trigger count is 3, for the scope-keyed and the
category-keyed limiter alike.  In general, with `limit_action = stop` and
`limitPerKey ≥ 1`, exactly the first `limitPerKey` decisions on a key are
true. -/
theorem c1_quota_inclusive_boundary :
    ((fnRunKey (freshFnLimiter cfgC1) "A" envZero 5).1
        = [true, true, true, false, false] ∧
     (fnRunKey (freshFnLimiter cfgC1) "A" envZero 5).2.state.alerts
        = [mkFnAlert 0 "A" 3 3] ∧
     (tyRunKey (freshTypeLimiter tyCfgC1) "/e" bodyA envZero 5).1
        = [true, true, true, false, false] ∧
     (tyRunKey (freshTypeLimiter tyCfgC1) "/e" bodyA envZero 5).2.state.alerts
        = [mkTypeAlert 0 "A" 3 "/e" 3]) ∧
    (∀ (cfgQ : FunctionLimitConfig) (fn : String) (env : ℕ → ℚ × ℚ) (m : ℕ),
       cfgQ.limit_action = "stop" → 1 ≤ cfgQ.limit_per_function →
       (fnRunKey (freshFnLimiter cfgQ) fn env m).1
         = (List.range m).map (fun i => decide (i < cfgQ.limit_per_function))) := by
  refine ⟨⟨by decide, by decide, by decide, by decide⟩, ?_⟩
  intro cfgQ fn env m hstop hn
  exact (fnRunKey_spec cfgQ hstop hn fn env m).1

/-- Witness for C1's general clause, at limit 2 over 4 calls. -/
theorem c1_witness :
    cfgC1.limit_action = "stop" ∧ 1 ≤ cfgC1.limit_per_function ∧
    (fnRunKey (freshFnLimiter cfgC1) "g" envZero 4).1
      = (List.range 4).map (fun i => decide (i < cfgC1.limit_per_function)) :=
  ⟨rfl, by decide,
   c1_quota_inclusive_boundary.2 cfgC1 "g" envZero 4 rfl (by decide)⟩

/-- One quota decision never unfreezes a stopped key: its stopped flag, its
count and its alert records are untouched. -/
theorem fn_step_preserves_stopped (L : FunctionLimiter) (fn : String) (now draw : ℚ)
    (k : String) (hk : k ∈ L.state.stopped_functions) :
    k ∈ (L.should_capture fn now draw).2.state.stopped_functions ∧
    alookupD (L.should_capture fn now draw).2.state.counts k 0
      = alookupD L.state.counts k 0 ∧
    (L.should_capture fn now draw).2.state.alerts.filter (fun a => a.function_name = k)
      = L.state.alerts.filter (fun a => a.function_name = k) := by
  cases hen : L.enabled with
  | false => simp [FunctionLimiter.should_capture, hen, hk]
  | true =>
    by_cases hfs : fn ∈ L.state.stopped_functions
    · by_cases hact : (L.get_config (some fn)).limit_action = "stop" <;>
        simp [FunctionLimiter.should_capture, hen, hfs, hact, hk]
    · have hfnk : fn ≠ k := by
        intro h
        exact hfs (h ▸ hk)
      have hkne : k ≠ fn := Ne.symm hfnk
      by_cases hover : (L.get_config (some fn)).limit_per_function ≤ alookupD L.state.counts fn 0
      · by_cases hact : (L.get_config (some fn)).limit_action = "stop" <;>
          by_cases hal : (L.get_config (some fn)).alert_on_limit <;>
            simp [FunctionLimiter.should_capture, hen, hfs, hover, hact, hal,
              mem_sinsert_of_mem _ _ _ hk, List.filter_append, mkFnAlert, hfnk]
      · by_cases hhit : (L.get_config (some fn)).limit_per_function
            ≤ alookupD L.state.counts fn 0 + 1
        · by_cases hal : (L.get_config (some fn)).alert_on_limit <;>
            simp [FunctionLimiter.should_capture, hen, hfs, hover, hhit, hal,
              mem_sinsert_of_mem _ _ _ hk, List.filter_append, mkFnAlert, hfnk,
              alookupD_aset_ne _ _ _ _ _ hkne]
        · simp [FunctionLimiter.should_capture, hen, hfs, hover, hhit, hk,
            alookupD_aset_ne _ _ _ _ _ hkne]

/-- Sequence version of `fn_step_preserves_stopped`. -/
theorem fnRunSeq_preserves_stopped (calls : List FnCall) (L : FunctionLimiter)
    (k : String) (hk : k ∈ L.state.stopped_functions) :
    k ∈ (fnRunSeq L calls).state.stopped_functions ∧
    alookupD (fnRunSeq L calls).state.counts k 0 = alookupD L.state.counts k 0 ∧
    (fnRunSeq L calls).state.alerts.filter (fun a => a.function_name = k)
      = L.state.alerts.filter (fun a => a.function_name = k) := by
  induction calls generalizing L with
  | nil => exact ⟨hk, rfl, rfl⟩
  | cons c rest ih =>
      obtain ⟨h1, h2, h3⟩ := fn_step_preserves_stopped L c.function_name c.now c.draw k hk
      obtain ⟨g1, g2, g3⟩ := ih _ h1
      exact ⟨g1, g2.trans h2, g3.trans h3⟩

/-- `TypeLimiter` version of `fn_step_preserves_stopped`. -/
theorem ty_step_preserves_stopped (L : TypeLimiter) (endpoint : String) (body : PyVal)
    (now draw : ℚ) (k : String) (hk : k ∈ L.state.stopped_types) :
    k ∈ (L.should_capture endpoint body now draw).2.state.stopped_types ∧
    alookupD (L.should_capture endpoint body now draw).2.state.counts k 0
      = alookupD L.state.counts k 0 ∧
    (L.should_capture endpoint body now draw).2.state.alerts.filter
        (fun a => a.type_value = k)
      = L.state.alerts.filter (fun a => a.type_value = k) := by
  cases hen : L.enabled with
  | false => simp [TypeLimiter.should_capture, hen, hk]
  | true =>
    cases hex : extract_type_value body (L.get_config (some endpoint)).field_path with
    | none => simp [TypeLimiter.should_capture, hen, hex, hk]
    | some tv =>
      by_cases hts : tv ∈ L.state.stopped_types
      · by_cases hact : (L.get_config (some endpoint)).limit_action = "stop" <;>
          simp [TypeLimiter.should_capture, hen, hex, hts, hact, hk]
      · have htvk : tv ≠ k := by
          intro h
          exact hts (h ▸ hk)
        have hkne : k ≠ tv := Ne.symm htvk
        by_cases hover : (L.get_config (some endpoint)).limit_per_type
            ≤ alookupD L.state.counts tv 0
        · by_cases hact : (L.get_config (some endpoint)).limit_action = "stop" <;>
            by_cases hal : (L.get_config (some endpoint)).alert_on_limit <;>
              simp [TypeLimiter.should_capture, hen, hex, hts, hover, hact, hal,
                mem_sinsert_of_mem _ _ _ hk, List.filter_append, mkTypeAlert, htvk]
        · by_cases hhit : (L.get_config (some endpoint)).limit_per_type
              ≤ alookupD L.state.counts tv 0 + 1
          · by_cases hal : (L.get_config (some endpoint)).alert_on_limit <;>
              simp [TypeLimiter.should_capture, hen, hex, hts, hover, hhit, hal,
                mem_sinsert_of_mem _ _ _ hk, List.filter_append, mkTypeAlert, htvk,
                alookupD_aset_ne _ _ _ _ _ hkne]
          · simp [TypeLimiter.should_capture, hen, hex, hts, hover, hhit, hk,
              alookupD_aset_ne _ _ _ _ _ hkne]

/-- Sequence version of `ty_step_preserves_stopped`. -/
theorem tyRunSeq_preserves_stopped (calls : List TyCall) (L : TypeLimiter)
    (k : String) (hk : k ∈ L.state.stopped_types) :
    k ∈ (tyRunSeq L calls).state.stopped_types ∧
    alookupD (tyRunSeq L calls).state.counts k 0 = alookupD L.state.counts k 0 ∧
    (tyRunSeq L calls).state.alerts.filter (fun a => a.type_value = k)
      = L.state.alerts.filter (fun a => a.type_value = k) := by
  induction calls generalizing L with
  | nil => exact ⟨hk, rfl, rfl⟩
  | cons c rest ih =>
      obtain ⟨h1, h2, h3⟩ :=
        ty_step_preserves_stopped L c.endpoint c.request_body c.now c.draw k hk
      obtain ⟨g1, g2, g3⟩ := ih _ h1
      exact ⟨g1, g2.trans h2, g3.trans h3⟩

/-- One quota decision appends at most one alert record. -/
theorem fn_step_alert_bound (L : FunctionLimiter) (fn : String) (now draw : ℚ) :
    (L.should_capture fn now draw).2.state.alerts = L.state.alerts ∨
    ∃ a, (L.should_capture fn now draw).2.state.alerts = L.state.alerts ++ [a] := by
  cases hen : L.enabled with
  | false => exact Or.inl (by simp [FunctionLimiter.should_capture, hen])
  | true =>
    by_cases hfs : fn ∈ L.state.stopped_functions
    · refine Or.inl ?_
      by_cases hact : (L.get_config (some fn)).limit_action = "stop" <;>
        simp [FunctionLimiter.should_capture, hen, hfs, hact]
    · by_cases hover : (L.get_config (some fn)).limit_per_function
          ≤ alookupD L.state.counts fn 0
      · by_cases hal : (L.get_config (some fn)).alert_on_limit
        · refine Or.inr ⟨mkFnAlert now fn (alookupD L.state.counts fn 0)
            (L.get_config (some fn)).limit_per_function, ?_⟩
          by_cases hact : (L.get_config (some fn)).limit_action = "stop" <;>
            simp [FunctionLimiter.should_capture, hen, hfs, hover, hal, hact]
        · refine Or.inl ?_
          by_cases hact : (L.get_config (some fn)).limit_action = "stop" <;>
            simp [FunctionLimiter.should_capture, hen, hfs, hover, hal, hact]
      · by_cases hhit : (L.get_config (some fn)).limit_per_function
            ≤ alookupD L.state.counts fn 0 + 1
        · by_cases hal : (L.get_config (some fn)).alert_on_limit
          · exact Or.inr ⟨mkFnAlert now fn (alookupD L.state.counts fn 0 + 1)
              (L.get_config (some fn)).limit_per_function,
              by simp [FunctionLimiter.should_capture, hen, hfs, hover, hhit, hal]⟩
          · exact Or.inl (by simp [FunctionLimiter.should_capture, hen, hfs, hover, hhit, hal])
        · exact Or.inl (by simp [FunctionLimiter.should_capture, hen, hfs, hover, hhit])

/-- One category-keyed quota decision appends at most one alert record. -/
theorem ty_step_alert_bound (L : TypeLimiter) (endpoint : String) (body : PyVal)
    (now draw : ℚ) :
    (L.should_capture endpoint body now draw).2.state.alerts = L.state.alerts ∨
    ∃ a, (L.should_capture endpoint body now draw).2.state.alerts
          = L.state.alerts ++ [a] := by
  cases hen : L.enabled with
  | false => exact Or.inl (by simp [TypeLimiter.should_capture, hen])
  | true =>
    cases hex : extract_type_value body (L.get_config (some endpoint)).field_path with
    | none => exact Or.inl (by simp [TypeLimiter.should_capture, hen, hex])
    | some tv =>
      by_cases hts : tv ∈ L.state.stopped_types
      · refine Or.inl ?_
        by_cases hact : (L.get_config (some endpoint)).limit_action = "stop" <;>
          simp [TypeLimiter.should_capture, hen, hex, hts, hact]
      · by_cases hover : (L.get_config (some endpoint)).limit_per_type
            ≤ alookupD L.state.counts tv 0
        · by_cases hal : (L.get_config (some endpoint)).alert_on_limit
          · refine Or.inr ⟨mkTypeAlert now tv (alookupD L.state.counts tv 0) endpoint
              (L.get_config (some endpoint)).limit_per_type, ?_⟩
            by_cases hact : (L.get_config (some endpoint)).limit_action = "stop" <;>
              simp [TypeLimiter.should_capture, hen, hex, hts, hover, hal, hact]
          · refine Or.inl ?_
            by_cases hact : (L.get_config (some endpoint)).limit_action = "stop" <;>
              simp [TypeLimiter.should_capture, hen, hex, hts, hover, hal, hact]
        · by_cases hhit : (L.get_config (some endpoint)).limit_per_type
              ≤ alookupD L.state.counts tv 0 + 1
          · by_cases hal : (L.get_config (some endpoint)).alert_on_limit
            · exact Or.inr ⟨mkTypeAlert now tv (alookupD L.state.counts tv 0 + 1) endpoint
                (L.get_config (some endpoint)).limit_per_type,
                by simp [TypeLimiter.should_capture, hen, hex, hts, hover, hhit, hal]⟩
            · exact Or.inl
                (by simp [TypeLimiter.should_capture, hen, hex, hts, hover, hhit, hal])
          · exact Or.inl (by simp [TypeLimiter.should_capture, hen, hex, hts, hover, hhit])

/-- C3: for any sequence of quota decisions under a fixed configuration, a
stopped key stays stopped with its count and alert records frozen until
reset, and any single decision appends at most one alert — so no duplicate
alert arises while a key remains stopped.  Proven for the scope-keyed and the
category-keyed limiter. -/
theorem c3_stopped_keys_frozen :
    (∀ (L : FunctionLimiter) (calls : List FnCall) (k : String),
       k ∈ L.state.stopped_functions →
       k ∈ (fnRunSeq L calls).state.stopped_functions ∧
       alookupD (fnRunSeq L calls).state.counts k 0 = alookupD L.state.counts k 0 ∧
       (fnRunSeq L calls).state.alerts.filter (fun a => a.function_name = k)
         = L.state.alerts.filter (fun a => a.function_name = k)) ∧
    (∀ (L : FunctionLimiter) (fn : String) (now draw : ℚ),
       (L.should_capture fn now draw).2.state.alerts = L.state.alerts ∨
       ∃ a, (L.should_capture fn now draw).2.state.alerts = L.state.alerts ++ [a]) ∧
    (∀ (L : TypeLimiter) (calls : List TyCall) (k : String),
       k ∈ L.state.stopped_types →
       k ∈ (tyRunSeq L calls).state.stopped_types ∧
       alookupD (tyRunSeq L calls).state.counts k 0 = alookupD L.state.counts k 0 ∧
       (tyRunSeq L calls).state.alerts.filter (fun a => a.type_value = k)
         = L.state.alerts.filter (fun a => a.type_value = k)) ∧
    (∀ (L : TypeLimiter) (endpoint : String) (body : PyVal) (now draw : ℚ),
       (L.should_capture endpoint body now draw).2.state.alerts = L.state.alerts ∨
       ∃ a, (L.should_capture endpoint body now draw).2.state.alerts
             = L.state.alerts ++ [a]) :=
  ⟨fun L calls k hk => fnRunSeq_preserves_stopped calls L k hk,
   fn_step_alert_bound,
   fun L calls k hk => tyRunSeq_preserves_stopped calls L k hk,
   ty_step_alert_bound⟩

/-- Witness for C3: two further decisions after key `A` stopped leave its
stopped flag, count and alert log for `A` untouched. -/
theorem c3_witness :
    ("A" ∈ fnL3.state.stopped_functions ∧
     "A" ∈ (fnRunSeq fnL3 [⟨"A", 1, 0⟩, ⟨"B", 2, 0⟩]).state.stopped_functions ∧
     alookupD (fnRunSeq fnL3 [⟨"A", 1, 0⟩, ⟨"B", 2, 0⟩]).state.counts "A" 0
       = alookupD fnL3.state.counts "A" 0 ∧
     (fnRunSeq fnL3 [⟨"A", 1, 0⟩, ⟨"B", 2, 0⟩]).state.alerts.filter
         (fun a => a.function_name = "A")
       = fnL3.state.alerts.filter (fun a => a.function_name = "A")) ∧
    ("A" ∈ tyL3.state.stopped_types ∧
     "A" ∈ (tyRunSeq tyL3 [⟨"/e", bodyA, 1, 0⟩]).state.stopped_types ∧
     alookupD (tyRunSeq tyL3 [⟨"/e", bodyA, 1, 0⟩]).state.counts "A" 0
       = alookupD tyL3.state.counts "A" 0 ∧
     (tyRunSeq tyL3 [⟨"/e", bodyA, 1, 0⟩]).state.alerts.filter
         (fun a => a.type_value = "A")
       = tyL3.state.alerts.filter (fun a => a.type_value = "A")) := by
  have h := c3_stopped_keys_frozen
  have hkA : "A" ∈ fnL3.state.stopped_functions := by decide
  have hkB : "A" ∈ tyL3.state.stopped_types := by decide
  obtain ⟨f1, f2, f3⟩ := h.1 fnL3 [⟨"A", 1, 0⟩, ⟨"B", 2, 0⟩] "A" hkA
  obtain ⟨g1, g2, g3⟩ := h.2.2.1 tyL3 [⟨"/e", bodyA, 1, 0⟩] "A" hkB
  exact ⟨⟨hkA, f1, f2, f3⟩, ⟨hkB, g1, g2, g3⟩⟩

/-- C5: under clustering, an unseen fingerprint is captured and added to the
scope's seen-set iff that set is below `maxPatternsPerScope`; otherwise the
decision is a random draw against `baseRate`.  Concretely, with cap 2 and
base rate 0, field-sets `[A], [A], [B], [C]` yield
`[true, false, true, false]` for any non-negative draws. -/
theorem c5_clustering_novelty :
    (∀ d₁ d₂ d₃ d₄ : ℚ, 0 ≤ d₂ → 0 ≤ d₄ →
       runDecisions cfgC5 (initState cfgC5)
         [evC5 ["A"] d₁, evC5 ["A"] d₂, evC5 ["B"] d₃, evC5 ["C"] d₄]
         = [true, false, true, false]) ∧
    (∀ (cfg : SamplingConfig) (s : SamplerState) (endpoint method : String)
       (request_body : Option ReqBody) (query_params : Option (List String)) (draw : ℚ),
       (create_pattern_hash endpoint method request_body query_params
           ∉ alookupD s.seen_patterns (method ++ ":" ++ endpoint) [] →
        (alookupD s.seen_patterns (method ++ ":" ++ endpoint) []).length
            < cfg.max_patterns_per_endpoint →
        sample_clustering cfg s endpoint method request_body query_params draw
          = (true, withSeen s (method ++ ":" ++ endpoint)
              (alookupD s.seen_patterns (method ++ ":" ++ endpoint) []
                ++ [create_pattern_hash endpoint method request_body query_params]))) ∧
       (create_pattern_hash endpoint method request_body query_params
           ∉ alookupD s.seen_patterns (method ++ ":" ++ endpoint) [] →
        ¬ (alookupD s.seen_patterns (method ++ ":" ++ endpoint) []).length
            < cfg.max_patterns_per_endpoint →
        sample_clustering cfg s endpoint method request_body query_params draw
          = (decide (draw < cfg.base_rate), withSeen s (method ++ ":" ++ endpoint)
              (alookupD s.seen_patterns (method ++ ":" ++ endpoint) []))) ∧
       (create_pattern_hash endpoint method request_body query_params
           ∈ alookupD s.seen_patterns (method ++ ":" ++ endpoint) [] →
        sample_clustering cfg s endpoint method request_body query_params draw
          = (decide (draw < cfg.base_rate), withSeen s (method ++ ":" ++ endpoint)
              (alookupD s.seen_patterns (method ++ ":" ++ endpoint) [])))) := by
  constructor
  · intro d₁ d₂ d₃ d₄ h₂ h₄
    have n₂ : ¬ (d₂ < (0:ℚ)) := not_lt.mpr h₂
    have n₄ : ¬ (d₄ < (0:ℚ)) := not_lt.mpr h₄
    simp +decide [runDecisions, should_capture, should_skip_endpoint,
      should_always_capture_endpoint, errorHit, slowHit, sample_clustering,
      cfgC5, defaultSamplingConfig, evC5, initState, create_pattern_hash,
      pyReprStrList, alookupD, alookup, aset, n₂, n₄]
  · intro cfg s endpoint method request_body query_params draw
    refine ⟨?_, ?_, ?_⟩
    · intro hpk hlen
      simp [sample_clustering, withSeen, hpk, hlen]
    · intro hpk hlen
      simp [sample_clustering, withSeen, hpk, hlen]
    · intro hpk
      simp [sample_clustering, withSeen, hpk]

/-- Witness for C5: concrete draws 0 for the run, and the general clauses at
a fresh state (unseen pattern, empty seen-set, cap 2). -/
theorem c5_witness :
    runDecisions cfgC5 (initState cfgC5)
      [evC5 ["A"] 0, evC5 ["A"] 0, evC5 ["B"] 0, evC5 ["C"] 0]
      = [true, false, true, false] ∧
    sample_clustering cfgC5 (initState cfgC5) "/api" "POST"
        (some (ReqBody.rdict ["A"])) none 0
      = (true, withSeen (initState cfgC5) "POST:/api"
          (alookupD (initState cfgC5).seen_patterns "POST:/api" []
            ++ [create_pattern_hash "/api" "POST" (some (ReqBody.rdict ["A"])) none])) := by
  have h := c5_clustering_novelty
  refine ⟨h.1 0 0 0 0 le_rfl le_rfl, ?_⟩
  exact (h.2 cfgC5 (initState cfgC5) "/api" "POST" (some (ReqBody.rdict ["A"])) none 0).1
    (by decide) (by decide)

/-- Counterexample to C2 as stated: under strategy `random`, an error-status
`Decide` call that hits the error override returns true but does **not** add
an error entry to the adaptive window — recording is gated on the adaptive
strategy, not performed "regardless of which strategy is active". -/
theorem c2_counterexample :
    cfgC2x.always_capture_errors = true ∧
    (500 : ℤ) ∈ cfgC2x.error_status_codes ∧
    should_skip_endpoint cfgC2x "/api" = false ∧
    should_always_capture_endpoint cfgC2x "/api" = false ∧
    (should_capture cfgC2x (initState cfgC2x) "/api" "GET" (some 500) none
      none none 0 0).1 = true ∧
    ¬ ((should_capture cfgC2x (initState cfgC2x) "/api" "GET" (some 500) none
          none none 0 0).2.recent_requests.length
        = (initState cfgC2x).recent_requests.length + 1) := by
  refine ⟨rfl, by decide, by decide, by decide, by decide, by decide⟩

/-- C2 (amended): whenever `alwaysCaptureErrors` holds, the status code is in
the error set and the scope matches neither prefix list, `Decide` returns
true and routes the event through `_record_for_adaptive` as an error; that
recording mutates the window — gaining exactly one error entry — only when
the configured strategy is adaptive, and is a strict no-op under every other
strategy. -/
theorem c2_amended_error_override (cfg : SamplingConfig) (s : SamplerState)
    (endpoint method : String) (c : ℤ) (duration_ms : Option ℚ)
    (request_body : Option ReqBody) (query_params : Option (List String))
    (now draw : ℚ)
    (hae : cfg.always_capture_errors = true)
    (hc : c ∈ cfg.error_status_codes)
    (hskip : should_skip_endpoint cfg endpoint = false)
    (halways : should_always_capture_endpoint cfg endpoint = false) :
    should_capture cfg s endpoint method (some c) duration_ms request_body
        query_params now draw = (true, record_for_adaptive cfg s now true) ∧
    (cfg.strategy ≠ Strategy.adaptive → record_for_adaptive cfg s now true = s) ∧
    (cfg.strategy = Strategy.adaptive → 0 < cfg.adaptive_window_seconds →
      ((record_for_adaptive cfg s now true).recent_requests.filter
          (fun p => p.2)).length
        = ((s.recent_requests.filter
              (fun p => now - cfg.adaptive_window_seconds < p.1)).filter
            (fun p => p.2)).length + 1) := by
  refine ⟨?_, ?_, ?_⟩
  · simp [should_capture, hskip, halways, errorHit, hae, hc]
  · intro h
    simp [record_for_adaptive, h]
  · intro hA hw
    have hnot : ¬ (cfg.strategy ≠ Strategy.adaptive) := by simp [hA]
    have hkeep : now - cfg.adaptive_window_seconds < now := by linarith
    have hrec : (record_for_adaptive cfg s now true).recent_requests
        = s.recent_requests.filter (fun p => now - cfg.adaptive_window_seconds < p.1)
          ++ [(now, true)] := by
      simp only [record_for_adaptive, if_neg hnot]
      split
      · split
        · simp [List.filter_append, hkeep]
        · simp [List.filter_append, hkeep]
      · simp [List.filter_append, hkeep]
    rw [hrec]
    simp [List.filter_append]

/-- Witness for C2 (amended): the 500-status event under strategy `random`
returns true and the window recording is a no-op. -/
theorem c2_witness :
    should_capture cfgC2x (initState cfgC2x) "/api" "GET" (some 500) none
        none none 0 0 = (true, record_for_adaptive cfgC2x (initState cfgC2x) 0 true) ∧
    record_for_adaptive cfgC2x (initState cfgC2x) 0 true = initState cfgC2x := by
  have h := c2_amended_error_override cfgC2x (initState cfgC2x) "/api" "GET" 500
    none none none 0 0 rfl (by decide) (by decide) (by decide)
  exact ⟨h.1, h.2.1 (by decide)⟩

/-- Counterexample to C6 as stated: with `baseRate = 1 > maxRate = 1/2`
(constructible — the source validates nothing), a recording call on an
error-free window sets the rate to `baseRate` directly, which differs from
`min(baseRate * (1 + errorRate * errorMultiplier), maxRate)`. -/
theorem c6_counterexample :
    cfgBaseGtMax.strategy = Strategy.adaptive ∧
    0 < cfgBaseGtMax.adaptive_window_seconds ∧
    ¬ ((record_for_adaptive cfgBaseGtMax (initState cfgBaseGtMax) 0 false).adaptive_rate
        = min (cfgBaseGtMax.base_rate * (1 + windowErrorRate
            (record_for_adaptive cfgBaseGtMax (initState cfgBaseGtMax) 0 false).recent_requests
              * cfgBaseGtMax.adaptive_error_multiplier)) cfgBaseGtMax.adaptive_max_rate) := by
  refine ⟨rfl, by norm_num [cfgBaseGtMax, defaultSamplingConfig], ?_⟩
  norm_num [record_for_adaptive, windowErrorRate, initState, cfgBaseGtMax,
    defaultSamplingConfig]

/-- C6 (amended): under strategy adaptive with `baseRate ≤ maxRate` and a
positive window, every recording call leaves the rate at
`min(baseRate * (1 + errorRate * errorMultiplier), maxRate)` over the pruned
(non-empty) window; when the error rate is zero the source writes `baseRate`
directly, which agrees with the formula exactly because `baseRate ≤ maxRate`.
An adaptive-strategy `Decide` call that hits no override is such a recording
call, and saturating the window with errors at the spec's numbers yields
rate 3/5. -/
theorem c6_amended_adaptive_rate_formula :
    (∀ (cfg : SamplingConfig) (s : SamplerState) (now : ℚ) (is_error : Bool),
       cfg.strategy = Strategy.adaptive → 0 < cfg.adaptive_window_seconds →
       cfg.base_rate ≤ cfg.adaptive_max_rate →
       (record_for_adaptive cfg s now is_error).adaptive_rate
         = min (cfg.base_rate * (1 + windowErrorRate
             (record_for_adaptive cfg s now is_error).recent_requests
               * cfg.adaptive_error_multiplier)) cfg.adaptive_max_rate) ∧
    (∀ (cfg : SamplingConfig) (s : SamplerState) (endpoint method : String)
       (request_body : Option ReqBody) (query_params : Option (List String))
       (now draw : ℚ),
       cfg.strategy = Strategy.adaptive →
       should_skip_endpoint cfg endpoint = false →
       should_always_capture_endpoint cfg endpoint = false →
       (should_capture cfg s endpoint method none none request_body
           query_params now draw).2 = record_for_adaptive cfg s now false) ∧
    (runEvents cfgAdapt (initState cfgAdapt) [errEvC6, errEvC6, errEvC6]).adaptive_rate
      = 3/5 := by
  refine ⟨?_, ?_, ?_⟩
  · intro cfg s now e hA hw hbm
    have hnot : ¬ (cfg.strategy ≠ Strategy.adaptive) := by simp [hA]
    have hkeep : now - cfg.adaptive_window_seconds < now := by linarith
    have hlen : 0 < ((s.recent_requests ++ [(now, e)]).filter
        (fun p => now - cfg.adaptive_window_seconds < p.1)).length := by
      simp [List.filter_append, hkeep]
    simp only [record_for_adaptive, if_neg hnot, if_pos hlen]
    split
    · simp [windowErrorRate]
    · rename_i her
      have hge : 0 ≤ ((((s.recent_requests ++ [(now, e)]).filter
          (fun p => now - cfg.adaptive_window_seconds < p.1)).filter
            (fun p => p.2)).length : ℚ) / (((s.recent_requests ++ [(now, e)]).filter
          (fun p => now - cfg.adaptive_window_seconds < p.1)).length : ℚ) := by
        positivity
      have hzero : ((((s.recent_requests ++ [(now, e)]).filter
          (fun p => now - cfg.adaptive_window_seconds < p.1)).filter
            (fun p => p.2)).length : ℚ) / (((s.recent_requests ++ [(now, e)]).filter
          (fun p => now - cfg.adaptive_window_seconds < p.1)).length : ℚ) = 0 :=
        le_antisymm (not_lt.mp her) hge
      simp only [windowErrorRate]
      rw [hzero]
      simp [min_eq_left hbm]
  · intro cfg s endpoint method request_body query_params now draw hA hskip halways
    simp [should_capture, hskip, halways, errorHit, slowHit, hA]
  · norm_num [runEvents, should_capture, record_for_adaptive, errorHit, slowHit,
      should_skip_endpoint, should_always_capture_endpoint, initState, cfgAdapt,
      defaultSamplingConfig, errEvC6, pyLower, pyStartswith]

/-- Witness for C6 (amended): the formula instantiated at the C6 config and a
single error recording from the empty state. -/
theorem c6_witness :
    cfgAdapt.strategy = Strategy.adaptive ∧
    (0:ℚ) < cfgAdapt.adaptive_window_seconds ∧
    cfgAdapt.base_rate ≤ cfgAdapt.adaptive_max_rate ∧
    (record_for_adaptive cfgAdapt (initState cfgAdapt) 0 true).adaptive_rate
      = min (cfgAdapt.base_rate * (1 + windowErrorRate
          (record_for_adaptive cfgAdapt (initState cfgAdapt) 0 true).recent_requests
            * cfgAdapt.adaptive_error_multiplier)) cfgAdapt.adaptive_max_rate := by
  refine ⟨rfl, by norm_num [cfgAdapt, defaultSamplingConfig],
    by norm_num [cfgAdapt, defaultSamplingConfig], ?_⟩
  exact c6_amended_adaptive_rate_formula.1 cfgAdapt (initState cfgAdapt) 0 true rfl
    (by norm_num [cfgAdapt, defaultSamplingConfig])
    (by norm_num [cfgAdapt, defaultSamplingConfig])

/-- Clustering decisions never touch the adaptive rate. -/
theorem sample_clustering_rate (cfg : SamplingConfig) (s : SamplerState)
    (endpoint method : String) (request_body : Option ReqBody)
    (query_params : Option (List String)) (draw : ℚ) :
    (sample_clustering cfg s endpoint method request_body query_params draw).2.adaptive_rate
      = s.adaptive_rate := by
  simp only [sample_clustering]
  split
  · rfl
  · split
    · rfl
    · rfl

/-- Head decisions never touch the adaptive rate. -/
theorem sample_head_rate (cfg : SamplingConfig) (s : SamplerState)
    (endpoint method : String) :
    (sample_head cfg s endpoint method).2.adaptive_rate = s.adaptive_rate := by
  simp only [sample_head]
  split
  · rfl
  · rfl

/-- A recording step keeps the adaptive rate inside `[baseRate, maxRate]`
for any valid configuration. -/
theorem record_rate_bounds (cfg : SamplingConfig) (s : SamplerState)
    (now : ℚ) (is_error : Bool)
    (h0 : 0 ≤ cfg.base_rate) (h1 : cfg.base_rate ≤ cfg.adaptive_max_rate)
    (h2 : 0 ≤ cfg.adaptive_error_multiplier)
    (hs1 : cfg.base_rate ≤ s.adaptive_rate)
    (hs2 : s.adaptive_rate ≤ cfg.adaptive_max_rate) :
    cfg.base_rate ≤ (record_for_adaptive cfg s now is_error).adaptive_rate ∧
    (record_for_adaptive cfg s now is_error).adaptive_rate ≤ cfg.adaptive_max_rate := by
  simp only [record_for_adaptive]
  split
  · exact ⟨hs1, hs2⟩
  · split
    · split
      · rename_i hlen her
        constructor
        · refine le_min ?_ h1
          have hmul : 0 ≤ (((List.filter (fun p => p.2)
              (List.filter (fun p => decide (now - cfg.adaptive_window_seconds < p.1))
                (s.recent_requests ++ [(now, is_error)]))).length : ℚ) /
              ((List.filter (fun p => decide (now - cfg.adaptive_window_seconds < p.1))
                (s.recent_requests ++ [(now, is_error)])).length : ℚ))
              * cfg.adaptive_error_multiplier := mul_nonneg (le_of_lt her) h2
          nlinarith
        · exact min_le_right _ _
      · exact ⟨le_refl _, h1⟩
    · exact ⟨hs1, hs2⟩

/-- A single `Decide` call keeps the adaptive rate inside
`[baseRate, maxRate]` for any valid configuration. -/
theorem step_rate_bounds (cfg : SamplingConfig) (s : SamplerState) (e : Event)
    (h0 : 0 ≤ cfg.base_rate) (h1 : cfg.base_rate ≤ cfg.adaptive_max_rate)
    (h2 : 0 ≤ cfg.adaptive_error_multiplier)
    (hs1 : cfg.base_rate ≤ s.adaptive_rate)
    (hs2 : s.adaptive_rate ≤ cfg.adaptive_max_rate) :
    cfg.base_rate ≤ (should_capture cfg s e.endpoint e.method e.status_code
        e.duration_ms e.request_body e.query_params e.now e.draw).2.adaptive_rate ∧
    (should_capture cfg s e.endpoint e.method e.status_code e.duration_ms
        e.request_body e.query_params e.now e.draw).2.adaptive_rate
      ≤ cfg.adaptive_max_rate := by
  simp only [should_capture]
  split
  · exact ⟨hs1, hs2⟩
  · split
    · exact ⟨hs1, hs2⟩
    · split
      · exact record_rate_bounds cfg s e.now true h0 h1 h2 hs1 hs2
      · split
        · exact ⟨hs1, hs2⟩
        · split
          · exact ⟨hs1, hs2⟩
          · exact ⟨hs1, hs2⟩
          · rw [sample_clustering_rate]
            exact ⟨hs1, hs2⟩
          · exact record_rate_bounds cfg s e.now false h0 h1 h2 hs1 hs2
          · rw [sample_head_rate]
            exact ⟨hs1, hs2⟩
          · exact ⟨hs1, hs2⟩

/-- Any sequence of `Decide` calls keeps the adaptive rate inside
`[baseRate, maxRate]`, starting from any state inside the interval. -/
theorem runEvents_rate_bounds (cfg : SamplingConfig)
    (h0 : 0 ≤ cfg.base_rate) (h1 : cfg.base_rate ≤ cfg.adaptive_max_rate)
    (h2 : 0 ≤ cfg.adaptive_error_multiplier) (evs : List Event) (s : SamplerState)
    (hs1 : cfg.base_rate ≤ s.adaptive_rate)
    (hs2 : s.adaptive_rate ≤ cfg.adaptive_max_rate) :
    cfg.base_rate ≤ (runEvents cfg s evs).adaptive_rate ∧
    (runEvents cfg s evs).adaptive_rate ≤ cfg.adaptive_max_rate := by
  induction evs generalizing s with
  | nil => exact ⟨hs1, hs2⟩
  | cons e rest ih =>
      obtain ⟨a, b⟩ := step_rate_bounds cfg s e h0 h1 h2 hs1 hs2
      exact ih _ a b

/-- Counterexample to C7 as stated: with `baseRate = 1 > maxRate = 1/2`
(constructible — the source validates nothing), already the freshly
constructed sampler (the empty `Decide` sequence) has its adaptive rate
outside `[baseRate, maxRate]`, which is empty. -/
theorem c7_counterexample :
    ¬ (cfgBaseGtMax.base_rate
          ≤ (runEvents cfgBaseGtMax (initState cfgBaseGtMax) []).adaptive_rate ∧
       (runEvents cfgBaseGtMax (initState cfgBaseGtMax) []).adaptive_rate
          ≤ cfgBaseGtMax.adaptive_max_rate) := by
  norm_num [runEvents, initState, cfgBaseGtMax, defaultSamplingConfig]

/-- C7 (amended): for every configuration with `0 ≤ baseRate ≤ maxRate` and
a non-negative error multiplier, every state reachable by `Decide` calls from
a fresh sampler has its adaptive rate within `[baseRate, maxRate]`. -/
theorem c7_amended_rate_bounds (cfg : SamplingConfig)
    (h0 : 0 ≤ cfg.base_rate) (h1 : cfg.base_rate ≤ cfg.adaptive_max_rate)
    (h2 : 0 ≤ cfg.adaptive_error_multiplier) (evs : List Event) :
    cfg.base_rate ≤ (runEvents cfg (initState cfg) evs).adaptive_rate ∧
    (runEvents cfg (initState cfg) evs).adaptive_rate ≤ cfg.adaptive_max_rate :=
  runEvents_rate_bounds cfg h0 h1 h2 evs (initState cfg) le_rfl h1

/-- Witness for C7 (amended): the C6 adaptive config after one error event
and one plain event keeps its rate within `[1/10, 1]`. -/
theorem c7_witness :
    (0:ℚ) ≤ cfgAdapt.base_rate ∧
    cfgAdapt.base_rate ≤ cfgAdapt.adaptive_max_rate ∧
    (0:ℚ) ≤ cfgAdapt.adaptive_error_multiplier ∧
    (cfgAdapt.base_rate
        ≤ (runEvents cfgAdapt (initState cfgAdapt) [errEvC6, plainEv]).adaptive_rate ∧
     (runEvents cfgAdapt (initState cfgAdapt) [errEvC6, plainEv]).adaptive_rate
        ≤ cfgAdapt.adaptive_max_rate) := by
  refine ⟨by norm_num [cfgAdapt, defaultSamplingConfig],
    by norm_num [cfgAdapt, defaultSamplingConfig],
    by norm_num [cfgAdapt, defaultSamplingConfig], ?_⟩
  exact c7_amended_rate_bounds cfgAdapt
    (by norm_num [cfgAdapt, defaultSamplingConfig])
    (by norm_num [cfgAdapt, defaultSamplingConfig])
    (by norm_num [cfgAdapt, defaultSamplingConfig]) [errEvC6, plainEv]

end Chronicle
